import Mathlib

/-!
Verification of the signal-state synchronization core of the
`vscode-project-label` extension.

The embedding models:
* the signal registry `ALL_SOUND_SIGNALS` (src/extension.ts) and the
  panel registry `SettingsPanel.ALL_SIGNALS` (settings panel module);
* the configuration store (`accessibility.signals.<key>` values plus the
  `projectLabel.silenceAllSounds` flag) as an explicit state record,
  with fallible writes modelled in the `Except Unit` monad and a failure
  oracle saying which keys the store rejects;
* `setSilenceAllSounds` (parallel fan-out of per-key writes, each with a
  rejection handler, followed by a guarded flag write) — the parallel
  disjoint-key writes are sequenced as a fold, which is sound because
  each write touches a single distinct key;
* the settings panel broadcast machinery (`_sendSignalStates` debounce,
  `_doSendSignalStates` authoritative read-and-post, the `silenceAll`,
  `updateSignal` and `requestSignals` message cases);
* the webview mirror (`applySignalStates`, `syncMasterCheckbox`).
-/

namespace ProjectLabel

/-- The registry of accessibility signal keys from src/extension.ts
(`ALL_SOUND_SIGNALS`), in source order. -/
def ALL_SOUND_SIGNALS : List String :=
  [ "chatEditModifiedFile", "chatRequestSent", "chatResponseReceived",
    "chatUserActionRequired", "editsKept", "nextEditSuggestion",
    "codeActionApplied", "codeActionTriggered", "clear", "progress",
    "lineHasBreakpoint", "lineHasError", "lineHasFoldedArea",
    "lineHasInlineSuggestion", "lineHasWarning", "noInlayHints",
    "onDebugBreak",
    "taskCompleted", "taskFailed",
    "terminalBell", "terminalCommandFailed", "terminalCommandSucceeded",
    "terminalQuickFix",
    "diffLineDeleted", "diffLineInserted", "diffLineModified",
    "notebookCellCompleted", "notebookCellFailed",
    "voiceRecordingStarted", "voiceRecordingStopped",
    "save", "format",
    "positionHasError", "positionHasWarning" ]

/-- The registry of signal keys held by the settings panel
(`SettingsPanel.ALL_SIGNALS`), in source order. -/
def SettingsPanel_ALL_SIGNALS : List String :=
  [ "chatEditModifiedFile", "chatRequestSent", "chatResponseReceived",
    "chatUserActionRequired", "editsKept", "nextEditSuggestion",
    "codeActionApplied", "codeActionTriggered", "clear", "progress",
    "lineHasBreakpoint", "lineHasError", "lineHasFoldedArea",
    "lineHasInlineSuggestion", "lineHasWarning", "noInlayHints",
    "onDebugBreak", "taskCompleted", "taskFailed",
    "terminalBell", "terminalCommandFailed", "terminalCommandSucceeded",
    "terminalQuickFix", "diffLineDeleted", "diffLineInserted",
    "diffLineModified", "notebookCellCompleted", "notebookCellFailed",
    "voiceRecordingStarted", "voiceRecordingStopped",
    "save", "format", "positionHasError", "positionHasWarning" ]

/-- The keys of the 34 `.signal-cb` checkboxes rendered in the panel
HTML (`data-signal` attributes), in document order. -/
def HTML_SIGNAL_KEYS : List String :=
  [ "chatRequestSent", "chatResponseReceived", "chatUserActionRequired",
    "chatEditModifiedFile", "editsKept", "nextEditSuggestion",
    "codeActionApplied", "codeActionTriggered", "clear", "progress",
    "lineHasError", "lineHasWarning", "lineHasBreakpoint",
    "lineHasFoldedArea", "lineHasInlineSuggestion", "noInlayHints",
    "onDebugBreak", "positionHasError", "positionHasWarning",
    "taskCompleted", "taskFailed",
    "terminalBell", "terminalCommandFailed", "terminalCommandSucceeded",
    "terminalQuickFix",
    "diffLineDeleted", "diffLineInserted", "diffLineModified",
    "notebookCellCompleted", "notebookCellFailed",
    "voiceRecordingStarted", "voiceRecordingStopped",
    "save", "format" ]

/-- A stored `accessibility.signals.<key>` value: the object
`\x7b sound: ... \x7d` written by the extension; the `sound` field is
optional in the TypeScript read type `\x7b sound?: string \x7d`. -/
structure SignalValue where
  sound : Option String
deriving DecidableEq, Repr

/-- The configuration store: one optional `SignalValue` per
`accessibility.signals` key (absent = key never written / unregistered)
plus the separately persisted `projectLabel.silenceAllSounds` flag. -/
@[ext]
structure Store where
  signals : String → Option SignalValue
  silenceAllSounds : Option Bool

/-- The value object `\x7b sound: silent ? "off" : "on" \x7d` built by
`setSilenceAllSounds` (and, with `value` for `silent`, by the
`updateSignal` message case). -/
def soundValue (silent : Bool) : SignalValue :=
  ⟨some (if silent then "off" else "on")⟩

/-- A single `signals.update(key, v, Global)` call: the store either
rejects the write (oracle `fails`) or records the new value for exactly
that key. -/
def signalUpdate (fails : String → Bool) (st : Store) (key : String)
    (v : SignalValue) : Except Unit Store :=
  if fails key then .error ()
  else .ok { st with signals := fun k => if k = key then some v else st.signals k }

/-- The same write with the `.then(undefined, () => \x7b\x7d)` rejection
handler attached: a failed write is absorbed and leaves the store
untouched, so the resulting promise always resolves. -/
def signalUpdateCaught (fails : String → Bool) (st : Store) (key : String)
    (v : SignalValue) : Except Unit Store :=
  match signalUpdate fails st key v with
  | .ok s => .ok s
  | .error _ => .ok st

/-- Pure form of one caught write. -/
def signalUpdateCaughtRun (fails : String → Bool) (st : Store) (key : String)
    (v : SignalValue) : Store :=
  match signalUpdate fails st key v with
  | .ok s => s
  | .error _ => st

/-- The `Promise.all` fan-out over the registry in `setSilenceAllSounds`:
every key gets one caught write.  The parallel writes touch pairwise
distinct keys, so their combined effect on the store is modelled by a
left fold. -/
def silenceFanOut (fails : String → Bool) (silent : Bool) (st : Store) :
    Except Unit Store :=
  ALL_SOUND_SIGNALS.foldlM
    (fun s key => signalUpdateCaught fails s key (soundValue silent)) st

/-- Pure fold of caught writes over an arbitrary key list. -/
def writesFold (fails : String → Bool) (v : SignalValue) (keys : List String)
    (st : Store) : Store :=
  keys.foldl (fun s key => signalUpdateCaughtRun fails s key v) st

/-- The `try`-guarded write of `projectLabel.silenceAllSounds`; oracle
`failsFlag` says whether the store rejects it. -/
def flagUpdate (failsFlag : Bool) (silent : Bool) (st : Store) :
    Except Unit Store :=
  if failsFlag then .error ()
  else .ok { st with silenceAllSounds := some silent }

/-- The flag write with its `catch \x7b\x7d` block: a rejection is
silently ignored and the store is left untouched. -/
def flagUpdateCaught (failsFlag : Bool) (silent : Bool) (st : Store) :
    Except Unit Store :=
  match flagUpdate failsFlag silent st with
  | .ok s => .ok s
  | .error _ => .ok st

/-- `setSilenceAllSounds(silent)` from src/extension.ts: await the
fan-out of caught per-key writes, then the try/catch-guarded flag write.
(The trailing information message and status-bar refresh do not touch
the store.) -/
def setSilenceAllSounds (fails : String → Bool) (failsFlag : Bool)
    (silent : Bool) (st : Store) : Except Unit Store := do
  let st1 ← silenceFanOut fails silent st
  flagUpdateCaught failsFlag silent st1

/-- Closed-form result of `setSilenceAllSounds`: every registry key whose
write the store accepts holds the new value, every other key keeps its
prior state, and the flag is written iff its write is accepted.  Proved
equal to the operational definition in `setSilenceAllSounds_ok`. -/
def setSilenceAllSoundsRun (fails : String → Bool) (failsFlag : Bool)
    (silent : Bool) (st : Store) : Store :=
  { signals := fun k =>
      if k ∈ ALL_SOUND_SIGNALS ∧ fails k = false then some (soundValue silent)
      else st.signals k,
    silenceAllSounds := if failsFlag then st.silenceAllSounds else some silent }

lemma signalUpdateCaught_eq (fails : String → Bool) (st : Store) (key : String)
    (v : SignalValue) :
    signalUpdateCaught fails st key v =
      .ok (signalUpdateCaughtRun fails st key v) := by
  unfold signalUpdateCaught signalUpdateCaughtRun
  cases h : signalUpdate fails st key v <;> simp

lemma signalUpdateCaughtRun_signals (fails : String → Bool) (st : Store)
    (key : String) (v : SignalValue) (k : String) :
    (signalUpdateCaughtRun fails st key v).signals k =
      if fails key = false ∧ k = key then some v else st.signals k := by
  unfold signalUpdateCaughtRun signalUpdate
  by_cases h : fails key <;> simp [h]

lemma signalUpdateCaughtRun_flag (fails : String → Bool) (st : Store)
    (key : String) (v : SignalValue) :
    (signalUpdateCaughtRun fails st key v).silenceAllSounds =
      st.silenceAllSounds := by
  unfold signalUpdateCaughtRun signalUpdate
  by_cases h : fails key <;> simp [h]

lemma foldlM_writes_ok (fails : String → Bool) (v : SignalValue) :
    ∀ (keys : List String) (st : Store),
      keys.foldlM (fun s key => signalUpdateCaught fails s key v) st =
        (.ok (writesFold fails v keys st) : Except Unit Store) := by
  intro keys
  induction keys with
  | nil => intro st; rfl
  | cons key rest ih =>
      intro st
      rw [List.foldlM_cons, signalUpdateCaught_eq]
      have hbind :
          ((.ok (signalUpdateCaughtRun fails st key v) : Except Unit Store) >>=
            fun s => rest.foldlM (fun s key => signalUpdateCaught fails s key v) s) =
          rest.foldlM (fun s key => signalUpdateCaught fails s key v)
            (signalUpdateCaughtRun fails st key v) := rfl
      rw [hbind, ih]
      rfl

lemma writesFold_signals (fails : String → Bool) (v : SignalValue) :
    ∀ (keys : List String) (st : Store) (k : String),
      (writesFold fails v keys st).signals k =
        if k ∈ keys ∧ fails k = false then some v else st.signals k := by
  intro keys
  induction keys with
  | nil => intro st k; simp [writesFold]
  | cons key rest ih =>
      intro st k
      have step : writesFold fails v (key :: rest) st =
          writesFold fails v rest (signalUpdateCaughtRun fails st key v) := by
        simp [writesFold]
      rw [step, ih]
      rw [signalUpdateCaughtRun_signals]
      by_cases hr : k ∈ rest <;> by_cases hf : fails k = false <;>
        by_cases hk : k = key <;>
        simp_all [List.mem_cons]

lemma writesFold_flag (fails : String → Bool) (v : SignalValue) :
    ∀ (keys : List String) (st : Store),
      (writesFold fails v keys st).silenceAllSounds = st.silenceAllSounds := by
  intro keys
  induction keys with
  | nil => intro st; simp [writesFold]
  | cons key rest ih =>
      intro st
      have step : writesFold fails v (key :: rest) st =
          writesFold fails v rest (signalUpdateCaughtRun fails st key v) := by
        simp [writesFold]
      rw [step, ih, signalUpdateCaughtRun_flag]

lemma flagUpdateCaught_eq (failsFlag : Bool) (silent : Bool) (st : Store) :
    flagUpdateCaught failsFlag silent st =
      .ok (if failsFlag then st
           else { st with silenceAllSounds := some silent }) := by
  unfold flagUpdateCaught flagUpdate
  by_cases h : failsFlag <;> simp [h]

/-- Characterization: `setSilenceAllSounds` always resolves (every
rejection is caught) and its result is `setSilenceAllSoundsRun`. -/
lemma setSilenceAllSounds_ok (fails : String → Bool) (failsFlag : Bool)
    (silent : Bool) (st : Store) :
    setSilenceAllSounds fails failsFlag silent st =
      .ok (setSilenceAllSoundsRun fails failsFlag silent st) := by
  unfold setSilenceAllSounds silenceFanOut
  rw [foldlM_writes_ok]
  show flagUpdateCaught failsFlag silent _ = _
  rw [flagUpdateCaught_eq]
  congr 1
  ext k
  · by_cases hb : failsFlag <;>
      simp [hb, setSilenceAllSoundsRun, writesFold_signals]
  · by_cases hb : failsFlag <;>
      simp [hb, setSilenceAllSoundsRun, writesFold_flag]

/-- The debounce delay of `_sendSignalStates` (300 ms). -/
def D : Nat := 300

/-- The boolean posted for one key by `_doSendSignalStates`:
`val?.sound === "off"` — an absent key (or an absent `sound` field)
yields `false`, a stored value yields the comparison with `"off"`. -/
def signalMuted (st : Store) (key : String) : Bool :=
  match st.signals key with
  | some v => v.sound = some "off"
  | none => false

/-- `_doSendSignalStates`: read every panel-registry key from the store
and post the full `signalStates` mapping. -/
def doSendSignalStates (st : Store) : List (String × Bool) :=
  SettingsPanel_ALL_SIGNALS.map (fun key => (key, signalMuted st key))

/-- The settings panel's broadcast state: the deadlines of timers that
are currently alive in the runtime, the stored `_signalDebounce` handle
(which may be stale — the fired callback never clears it), and the
`signalStates` snapshots posted so far, in order. -/
structure Panel where
  live : List Nat
  handle : Option Nat
  sends : List (List (String × Bool))

/-- Panel state on construction: no timer, nothing posted. -/
def initialPanel : Panel := ⟨[], none, []⟩

/-- `clearTimeout(this._signalDebounce)` when a handle is stored:
removes that timer from the runtime if it is still alive (clearing a
fired or cleared timer is a no-op). -/
def clearStoredTimeout (p : Panel) : Panel :=
  match p.handle with
  | some h => { p with live := p.live.erase h }
  | none => p

/-- `_sendSignalStates()` at time `now`: clear any stored timer, then
schedule a fresh one `D` ms out and store its handle. -/
def sendSignalStates (now : Nat) (p : Panel) : Panel :=
  let p1 := clearStoredTimeout p
  { p1 with live := p1.live ++ [now + D], handle := some (now + D) }

/-- A scheduled debounce callback with deadline `d` firing: only a timer
still alive runs; it posts the snapshot read from the store at fire
time and leaves the stored handle as it is. -/
def fireTimer (st : Store) (d : Nat) (p : Panel) : Panel :=
  if d ∈ p.live then
    { p with live := p.live.erase d, sends := p.sends ++ [doSendSignalStates st] }
  else p

/-- The tail of the `silenceAll` message case: cancel any pending
debounce (clearing the handle), then `_doSendSignalStates()` at once. -/
def cancelAndFlush (st : Store) (p : Panel) : Panel :=
  let p1 :=
    match p.handle with
    | some h => { p with live := p.live.erase h, handle := none }
    | none => p
  { p1 with sends := p1.sends ++ [doSendSignalStates st] }

/-- The events that drive the panel's broadcast state: a configuration
change notification and an inbound `requestSignals` message both call
`_sendSignalStates`; a scheduled timer may fire; the tail of the
`silenceAll` case cancels and posts immediately. -/
inductive PanelEv where
  | notify (t : Nat)
  | request (t : Nat)
  | fire (t : Nat)
  | silenceAllDone (t : Nat)

/-- One panel event. -/
def panelStep (st : Store) (p : Panel) : PanelEv → Panel
  | .notify t => sendSignalStates t p
  | .request t => sendSignalStates t p
  | .fire t => fireTimer st t p
  | .silenceAllDone _ => cancelAndFlush st p

/-- A sequence of panel events. -/
def panelRun (st : Store) (p : Panel) : List PanelEv → Panel
  | [] => p
  | e :: es => panelRun st (panelStep st p e) es

/-- The single-pending-broadcast invariant: at most one debounce timer
is alive, and any live timer is the one the stored handle points to. -/
def timerInv (p : Panel) : Prop :=
  p.live.length ≤ 1 ∧ ∀ d ∈ p.live, p.handle = some d

instance (p : Panel) : Decidable (timerInv p) := by
  unfold timerInv; infer_instance

lemma timerInv_initial : timerInv initialPanel := by
  constructor <;> simp [initialPanel]

lemma timerInv_live_cases (p : Panel) (h : timerInv p) :
    p.live = [] ∨ ∃ d, p.live = [d] ∧ p.handle = some d := by
  obtain ⟨hlen, hmem⟩ := h
  match hl : p.live with
  | [] => exact Or.inl rfl
  | [d] => exact Or.inr ⟨d, rfl, hmem d (by simp [hl])⟩
  | _ :: _ :: _ => simp [hl] at hlen

lemma clearStoredTimeout_live (p : Panel) (h : timerInv p) :
    (clearStoredTimeout p).live = [] ∧
      (clearStoredTimeout p).handle = p.handle ∧
      (clearStoredTimeout p).sends = p.sends := by
  rcases timerInv_live_cases p h with hl | ⟨d, hl, hh⟩
  · unfold clearStoredTimeout
    cases hp : p.handle <;> simp [hp, hl]
  · unfold clearStoredTimeout
    simp [hh, hl]

lemma timerInv_sendSignalStates (now : Nat) (p : Panel) (h : timerInv p) :
    timerInv (sendSignalStates now p) := by
  obtain ⟨hl, hh, _⟩ := clearStoredTimeout_live p h
  unfold sendSignalStates
  constructor <;> simp [hl]

lemma timerInv_fireTimer (st : Store) (t : Nat) (p : Panel) (h : timerInv p) :
    timerInv (fireTimer st t p) := by
  unfold fireTimer
  by_cases ht : t ∈ p.live
  · rcases timerInv_live_cases p h with hl | ⟨d, hl, hh⟩
    · simp [hl] at ht
    · have : t = d := by simp [hl] at ht; exact ht
      subst this
      constructor <;> simp [ht, hl]
  · simp [ht]; exact h

lemma timerInv_cancelAndFlush (st : Store) (p : Panel) (h : timerInv p) :
    timerInv (cancelAndFlush st p) := by
  unfold cancelAndFlush
  rcases timerInv_live_cases p h with hl | ⟨d, hl, hh⟩
  · cases hp : p.handle
    · constructor <;> simp [hp, hl]
    · constructor <;> simp [hp, hl]
  · constructor <;> simp [hh, hl]

lemma timerInv_panelStep (st : Store) (p : Panel) (e : PanelEv)
    (h : timerInv p) : timerInv (panelStep st p e) := by
  cases e with
  | notify t => exact timerInv_sendSignalStates t p h
  | request t => exact timerInv_sendSignalStates t p h
  | fire t => exact timerInv_fireTimer st t p h
  | silenceAllDone t => exact timerInv_cancelAndFlush st p h

lemma timerInv_panelRun (st : Store) :
    ∀ (evs : List PanelEv) (p : Panel), timerInv p →
      timerInv (panelRun st p evs) := by
  intro evs
  induction evs with
  | nil => intro p h; exact h
  | cons e es ih =>
      intro p h
      exact ih _ (timerInv_panelStep st p e h)

/-- Time passing up to instant `t`: under the timer invariant at most
one timer is alive; if its deadline has been reached it fires (reading
the store at fire time), otherwise nothing happens. -/
def elapseTo (st : Store) (t : Nat) (p : Panel) : Panel :=
  match p.live with
  | [d] => if d ≤ t then fireTimer st d p else p
  | _ => p

/-- A burst of change notifications at the given instants, in time
order: before each notification any due timer fires, then the
notification calls `_sendSignalStates`. -/
def runBurst (st : Store) : List Nat → Panel → Panel
  | [], p => p
  | t :: ts, p => runBurst st ts (sendSignalStates t (elapseTo st t p))

/-- After the burst all remaining time passes: a still-pending timer
fires. -/
def settleAll (st : Store) (p : Panel) : Panel :=
  match p.live with
  | [d] => fireTimer st d p
  | _ => p

/-- `chainedFromB prev ts` says the instants `ts` are in order and each
arrives strictly less than `D` ms after the previous one (with `prev`
the previous arrival). -/
def chainedFromB : Nat → List Nat → Bool
  | _, [] => true
  | prev, t :: ts => decide (prev ≤ t) && decide (t < prev + D) && chainedFromB t ts

/-- The last arrival instant of a burst. -/
def lastArrival (prev : Nat) (ts : List Nat) : Nat :=
  ts.getLastD prev

lemma runBurst_pending (st : Store) :
    ∀ (ts : List Nat) (prev : Nat) (s : List (List (String × Bool))),
      chainedFromB prev ts = true →
      runBurst st ts ⟨[prev + D], some (prev + D), s⟩ =
        ⟨[lastArrival prev ts + D], some (lastArrival prev ts + D), s⟩ := by
  intro ts
  induction ts with
  | nil => intro prev s _; rfl
  | cons t rest ih =>
      intro prev s hchain
      have h1 : prev ≤ t ∧ t < prev + D ∧ chainedFromB t rest = true := by
        unfold chainedFromB at hchain
        simp only [Bool.and_eq_true, decide_eq_true_eq] at hchain
        exact ⟨hchain.1.1, hchain.1.2, hchain.2⟩
      have helapse : elapseTo st t (⟨[prev + D], some (prev + D), s⟩ : Panel) =
          ⟨[prev + D], some (prev + D), s⟩ := by
        unfold elapseTo
        simp only []
        rw [if_neg (by omega)]
      have hsend : sendSignalStates t (⟨[prev + D], some (prev + D), s⟩ : Panel) =
          ⟨[t + D], some (t + D), s⟩ := by
        unfold sendSignalStates clearStoredTimeout
        simp [List.erase_cons]
      have hlast : lastArrival prev (t :: rest) = lastArrival t rest := by
        unfold lastArrival
        exact List.getLastD_cons prev t rest
      rw [runBurst, helapse, hsend, hlast]
      exact ih t s h1.2.2

/-- Coalescing: a whole burst from the idle panel produces exactly one
posted snapshot, read from the store when the final timer fires. -/
lemma runBurst_coalesces (st : Store) (t0 : Nat) (ts : List Nat)
    (hchain : chainedFromB t0 ts = true) :
    (settleAll st (runBurst st (t0 :: ts) initialPanel)).sends =
      [doSendSignalStates st] := by
  have hfirst : sendSignalStates t0 (elapseTo st t0 initialPanel) =
      ⟨[t0 + D], some (t0 + D), []⟩ := by
    unfold initialPanel elapseTo sendSignalStates clearStoredTimeout
    simp
  rw [runBurst, hfirst, runBurst_pending st ts t0 [] hchain]
  unfold settleAll fireTimer
  simp

/-- The client-local state of the webview: one checked flag per
`.signal-cb` checkbox, the master `silenceAllSounds` checkbox, and the
`silenceAllSounds` value held in `currentSettings` after a
`settingsUpdate` message. -/
structure WebviewState where
  sigChecked : String → Bool
  masterChecked : Bool
  storedSilenceAllSetting : Bool

/-- `syncMasterCheckbox()`: the master checkbox is set to the AND of
every signal checkbox currently in the document. -/
def syncMasterCheckbox (w : WebviewState) : WebviewState :=
  { w with masterChecked := HTML_SIGNAL_KEYS.all w.sigChecked }

/-- `applySignalStates(states)`: every signal checkbox whose key occurs
in the delivered mapping is overwritten from it, then
`syncMasterCheckbox()` re-derives the master checkbox. -/
def applySignalStates (states : String → Option Bool) (w : WebviewState) :
    WebviewState :=
  syncMasterCheckbox
    { w with sigChecked := fun k =>
        if k ∈ HTML_SIGNAL_KEYS then
          match states k with
          | some v => v
          | none => w.sigChecked k
        else w.sigChecked k }

/-- The `settingsUpdate` path of the webview (`applySettings`): it
records the passed `silenceAllSounds` setting in `currentSettings` but —
per the source comment — deliberately does not touch the master checkbox
nor any signal checkbox. -/
def applySettings (silenceAllSetting : Bool) (w : WebviewState) : WebviewState :=
  { w with storedSilenceAllSetting := silenceAllSetting }

/-- The `updateSignal` message case: one try/catch-guarded
`signals.update(msg.signal, \x7b sound: msg.value ? "off" : "on" \x7d)`. -/
def handleUpdateSignal (fails : String → Bool) (st : Store) (key : String)
    (value : Bool) : Store :=
  match signalUpdate fails st key (soundValue value) with
  | .ok s => s
  | .error _ => st

/-- The `silenceAll` message case: await the
`projectLabel.(un)silenceAllSounds` command (which awaits
`setSilenceAllSounds value`), and only once it has resolved cancel any
pending debounce and post the snapshot immediately.  Were the command to
reject, the handler would abort before the flush — modelled by the
`error` branch. -/
def handleSilenceAllMsg (fails : String → Bool) (failsFlag : Bool)
    (value : Bool) (st : Store) (p : Panel) : Store × Panel :=
  match setSilenceAllSounds fails failsFlag value st with
  | .ok st1 => (st1, cancelAndFlush st1 p)
  | .error _ => (st, p)

/-- The observable actions of the `silenceAll` message handling, used to
state ordering properties. -/
inductive Act where
  | writeSignal (key : String)
  | writeFlag
  | showNotice
  | updateStatusBar
  | clearDebounce
  | flushSend
deriving DecidableEq, Repr

/-- The action sequence of one `silenceAll` message: the 34 per-key
writes issued (and settled) by `setSilenceAllSounds`, its flag write,
information message and status-bar refresh, then — after the awaited
command resolves — the debounce cancellation and the immediate post. -/
def silenceAllTrace : List Act :=
  ALL_SOUND_SIGNALS.map Act.writeSignal ++
    [Act.writeFlag, Act.showNotice, Act.updateStatusBar,
     Act.clearDebounce, Act.flushSend]

/-- The key of a per-signal write action. -/
def actWriteKey : Act → Option String
  | .writeSignal k => some k
  | _ => none

/-- A store with no signal key registered and no flag set. -/
def emptyStore : Store := ⟨fun _ => none, none⟩

lemma silenceAllTrace_writeSignal_lt {i : Nat} {k : String}
    (h : silenceAllTrace[i]? = some (Act.writeSignal k)) :
    i < ALL_SOUND_SIGNALS.length := by
  by_contra hge
  push_neg at hge
  have hlen : (ALL_SOUND_SIGNALS.map Act.writeSignal).length =
      ALL_SOUND_SIGNALS.length := List.length_map _ _
  rw [silenceAllTrace, List.getElem?_append_right (by omega)] at h
  rw [hlen] at h
  have hi5 : i - ALL_SOUND_SIGNALS.length < 5 := by
    by_contra h5
    push_neg at h5
    rw [List.getElem?_eq_none (by simpa using h5)] at h
    exact Option.noConfusion h
  interval_cases hm : (i - ALL_SOUND_SIGNALS.length) <;>
    simp_all

lemma silenceAllTrace_flushSend_eq {j : Nat}
    (h : silenceAllTrace[j]? = some Act.flushSend) :
    j = ALL_SOUND_SIGNALS.length + 4 := by
  rcases Nat.lt_or_ge j (ALL_SOUND_SIGNALS.map Act.writeSignal).length with hj | hj
  · rw [silenceAllTrace, List.getElem?_append_left hj] at h
    rw [List.getElem?_map] at h
    rcases hx : ALL_SOUND_SIGNALS[j]? with _ | x <;> simp [hx] at h
  · have hlen : (ALL_SOUND_SIGNALS.map Act.writeSignal).length =
        ALL_SOUND_SIGNALS.length := List.length_map _ _
    rw [silenceAllTrace, List.getElem?_append_right hj] at h
    rw [hlen] at h
    have hj5 : j - ALL_SOUND_SIGNALS.length < 5 := by
      by_contra h5
      push_neg at h5
      rw [List.getElem?_eq_none (by simpa using h5)] at h
      exact Option.noConfusion h
    have hjge : ALL_SOUND_SIGNALS.length ≤ j := by
      rw [hlen] at hj; exact hj
    interval_cases hm : (j - ALL_SOUND_SIGNALS.length) <;> simp_all
    omega

lemma html_keys_all_eq_panel_all (f : String → Bool) :
    HTML_SIGNAL_KEYS.all f = SettingsPanel_ALL_SIGNALS.all f := by
  have h1 : ∀ x ∈ HTML_SIGNAL_KEYS, x ∈ SettingsPanel_ALL_SIGNALS := by decide
  have h2 : ∀ x ∈ SettingsPanel_ALL_SIGNALS, x ∈ HTML_SIGNAL_KEYS := by decide
  rcases hall : SettingsPanel_ALL_SIGNALS.all f with _ | _
  · rw [List.all_eq_false] at hall ⊢
    obtain ⟨x, hx, hfx⟩ := hall
    exact ⟨x, h2 x hx, hfx⟩
  · rw [List.all_eq_true] at hall ⊢
    exact fun x hx => hall x (h1 x hx)

lemma setSilenceAllSoundsRun_idem (fails : String → Bool) (failsFlag : Bool)
    (silent : Bool) (st : Store) :
    setSilenceAllSoundsRun fails failsFlag silent
        (setSilenceAllSoundsRun fails failsFlag silent st) =
      setSilenceAllSoundsRun fails failsFlag silent st := by
  ext k
  · simp only [setSilenceAllSoundsRun]
    by_cases h : k ∈ ALL_SOUND_SIGNALS ∧ fails k = false <;> simp [h]
  · simp only [setSilenceAllSoundsRun]
    by_cases hb : failsFlag <;> simp [hb]

lemma cancelAndFlush_sends (st : Store) (p : Panel) :
    (cancelAndFlush st p).sends = p.sends ++ [doSendSignalStates st] := by
  unfold cancelAndFlush
  cases hp : p.handle <;> simp [hp]

/-- Claim C1: for every boolean input, `setSilenceAllSounds` issues one
write per key of the signal registry (34 keys, each exactly once), the
failure of any individual write is isolated — every accepted write still
lands, every rejected key keeps its prior state — and for every failure
oracle the operation resolves without an observable exception. -/
theorem silenceAll_writes_isolated (fails : String → Bool) (failsFlag : Bool)
    (silent : Bool) (st : Store) (k : String) :
    setSilenceAllSounds fails failsFlag silent st =
      .ok (setSilenceAllSoundsRun fails failsFlag silent st) ∧
    (setSilenceAllSoundsRun fails failsFlag silent st).signals k =
      (if k ∈ ALL_SOUND_SIGNALS ∧ fails k = false then some (soundValue silent)
       else st.signals k) ∧
    silenceAllTrace.filterMap actWriteKey = ALL_SOUND_SIGNALS ∧
    ALL_SOUND_SIGNALS.length = 34 ∧
    ALL_SOUND_SIGNALS.Nodup := by
  refine ⟨setSilenceAllSounds_ok fails failsFlag silent st, rfl, ?_, rfl, by decide⟩
  rfl

/-- Claim C6: applying the master toggle with `true` twice in succession
leaves the store in the same final state as applying it once; in
particular the Signal set is unchanged by the second application. -/
theorem silenceAll_idempotent (fails : String → Bool) (failsFlag : Bool)
    (st : Store) :
    (setSilenceAllSounds fails failsFlag true st).bind
        (setSilenceAllSounds fails failsFlag true) =
      setSilenceAllSounds fails failsFlag true st ∧
    (setSilenceAllSoundsRun fails failsFlag true
        (setSilenceAllSoundsRun fails failsFlag true st)).signals =
      (setSilenceAllSoundsRun fails failsFlag true st).signals := by
  constructor
  · rw [setSilenceAllSounds_ok fails failsFlag true st]
    show setSilenceAllSounds fails failsFlag true
        (setSilenceAllSoundsRun fails failsFlag true st) =
      .ok (setSilenceAllSoundsRun fails failsFlag true st)
    rw [setSilenceAllSounds_ok, setSilenceAllSoundsRun_idem]
  · rw [setSilenceAllSoundsRun_idem]

/-- Claim C10: `setSilenceAllSounds silent` also writes the persisted
`projectLabel.silenceAllSounds` flag to `silent`; if that single write is
rejected it is silently absorbed (the flag keeps its prior value), the
per-signal writes performed before it are unaffected by the flag
outcome, and the operation still resolves without error. -/
theorem silenceAll_flag_write_absorbed (fails : String → Bool)
    (failsFlag : Bool) (silent : Bool) (st : Store) (b1 b2 : Bool) :
    setSilenceAllSounds fails failsFlag silent st =
      .ok (setSilenceAllSoundsRun fails failsFlag silent st) ∧
    (setSilenceAllSoundsRun fails failsFlag silent st).silenceAllSounds =
      (if failsFlag then st.silenceAllSounds else some silent) ∧
    (setSilenceAllSoundsRun fails b1 silent st).signals =
      (setSilenceAllSoundsRun fails b2 silent st).signals := by
  exact ⟨setSilenceAllSounds_ok fails failsFlag silent st, rfl, rfl⟩

/-- Claim C2: after the webview applies a delivered `signalStates`
mapping (overwriting every signal checkbox whose key it carries), the
master checkbox equals the AND of the signal checkboxes over the signal
registry; it is recomputed from them alone — a different value of the
separately stored `silenceAllSounds` setting cannot change it, and the
`settingsUpdate` path never writes the master checkbox at all. -/
theorem snapshot_master_is_and (states : String → Option Bool)
    (w : WebviewState) (b : Bool) (k : String) (v : Bool)
    (hk : k ∈ HTML_SIGNAL_KEYS) (hv : states k = some v) :
    (applySignalStates states w).masterChecked =
      HTML_SIGNAL_KEYS.all (applySignalStates states w).sigChecked ∧
    (applySignalStates states w).masterChecked =
      SettingsPanel_ALL_SIGNALS.all (applySignalStates states w).sigChecked ∧
    (applySignalStates states
        { w with storedSilenceAllSetting := b }).masterChecked =
      (applySignalStates states w).masterChecked ∧
    (applySettings b w).masterChecked = w.masterChecked ∧
    (applySignalStates states w).sigChecked k = v := by
  refine ⟨rfl, ?_, rfl, rfl, ?_⟩
  · exact html_keys_all_eq_panel_all _
  · simp [applySignalStates, syncMasterCheckbox, hk, hv]

/-- Concrete witness for `snapshot_master_is_and`. -/
theorem snapshot_master_is_and_witness :
    "save" ∈ HTML_SIGNAL_KEYS ∧
    (fun (_ : String) => some true) "save" = some true ∧
    (applySignalStates (fun _ => some true)
        ⟨fun _ => false, false, false⟩).sigChecked "save" = true :=
  ⟨by decide, rfl,
    (snapshot_master_is_and (fun _ => some true)
      ⟨fun _ => false, false, false⟩ true "save" true (by decide)
      rfl).2.2.2.2⟩

/-- Claim C3: at most one debounce timer is ever alive — every
notification clears the stored timer before scheduling its replacement —
and a burst of notifications each arriving less than `D` ms after the
previous one yields exactly one posted snapshot. -/
theorem debounce_single_pending (st : Store) (evs : List PanelEv)
    (t0 t : Nat) (ts : List Nat) (p : Panel)
    (hchain : chainedFromB t0 ts = true) (hp : timerInv p) :
    timerInv (panelRun st initialPanel evs) ∧
    (sendSignalStates t p).live = [t + D] ∧
    (settleAll st (runBurst st (t0 :: ts) initialPanel)).sends =
      [doSendSignalStates st] := by
  refine ⟨timerInv_panelRun st evs initialPanel timerInv_initial, ?_,
    runBurst_coalesces st t0 ts hchain⟩
  obtain ⟨hl, _, _⟩ := clearStoredTimeout_live p hp
  unfold sendSignalStates
  simp [hl]

/-- Concrete witness for `debounce_single_pending`. -/
theorem debounce_single_pending_witness :
    chainedFromB 0 [100, 250] = true ∧ timerInv initialPanel ∧
    (settleAll emptyStore
        (runBurst emptyStore [0, 100, 250] initialPanel)).sends =
      [doSendSignalStates emptyStore] :=
  ⟨by decide, timerInv_initial,
    (debounce_single_pending emptyStore [PanelEv.notify 0, PanelEv.fire 300]
      0 7 [100, 250] initialPanel (by decide) timerInv_initial).2.2⟩

/-- Claim C4: in the `silenceAll` message handling every per-key write
action precedes the immediate flush action, and the snapshot the flush
posts is read from the store after all per-key writes (and the flag
write) have settled. -/
theorem silenceAll_flush_after_writes (fails : String → Bool)
    (failsFlag : Bool) (value : Bool) (st : Store) (p : Panel)
    (i j : Nat) (k : String)
    (hi : silenceAllTrace[i]? = some (Act.writeSignal k))
    (hj : silenceAllTrace[j]? = some Act.flushSend) :
    i < j ∧
    handleSilenceAllMsg fails failsFlag value st p =
      (setSilenceAllSoundsRun fails failsFlag value st,
       cancelAndFlush (setSilenceAllSoundsRun fails failsFlag value st) p) ∧
    (handleSilenceAllMsg fails failsFlag value st p).2.sends =
      p.sends ++
        [doSendSignalStates (setSilenceAllSoundsRun fails failsFlag value st)] := by
  have h1 := silenceAllTrace_writeSignal_lt hi
  have h2 := silenceAllTrace_flushSend_eq hj
  have hmsg : handleSilenceAllMsg fails failsFlag value st p =
      (setSilenceAllSoundsRun fails failsFlag value st,
       cancelAndFlush (setSilenceAllSoundsRun fails failsFlag value st) p) := by
    unfold handleSilenceAllMsg
    rw [setSilenceAllSounds_ok]
  refine ⟨by omega, hmsg, ?_⟩
  rw [hmsg]
  exact cancelAndFlush_sends _ p

/-- Concrete witness for `silenceAll_flush_after_writes`. -/
theorem silenceAll_flush_after_writes_witness :
    silenceAllTrace[0]? = some (Act.writeSignal "chatEditModifiedFile") ∧
    silenceAllTrace[38]? = some Act.flushSend ∧ (0 : Nat) < 38 :=
  ⟨by decide, by decide,
    (silenceAll_flush_after_writes (fun _ => false) false true emptyStore
      initialPanel 0 38 "chatEditModifiedFile" (by decide) (by decide)).1⟩

/-- Claim C5: every posted `signalStates` message carries exactly one
boolean entry per key of the panel registry (which is exactly the
34-key registry the master toggle writes, a duplicate-free list), each
value is the store read of that key, and the snapshot a firing timer
posts is read from the store at fire time. -/
theorem signalStates_complete (st : Store) (k : String) (b : Bool)
    (p : Panel) (d : Nat)
    (hmem : (k, b) ∈ doSendSignalStates st) (hd : d ∈ p.live) :
    (doSendSignalStates st).map Prod.fst = SettingsPanel_ALL_SIGNALS ∧
    SettingsPanel_ALL_SIGNALS = ALL_SOUND_SIGNALS ∧
    SettingsPanel_ALL_SIGNALS.length = 34 ∧
    SettingsPanel_ALL_SIGNALS.Nodup ∧
    b = signalMuted st k ∧
    (fireTimer st d p).sends = p.sends ++ [doSendSignalStates st] := by
  refine ⟨?_, by decide, rfl, by decide, ?_, ?_⟩
  · simp only [doSendSignalStates, List.map_map]
    exact List.map_id _
  · simp only [doSendSignalStates, List.mem_map] at hmem
    obtain ⟨key, _, hkey⟩ := hmem
    obtain ⟨h1, h2⟩ := Prod.mk.injEq .. ▸ hkey
    rw [← h1, ← h2]
  · unfold fireTimer
    simp [hd]

/-- Concrete witness for `signalStates_complete`. -/
theorem signalStates_complete_witness :
    ("chatEditModifiedFile", false) ∈ doSendSignalStates emptyStore ∧
    300 ∈ (⟨[300], some 300, []⟩ : Panel).live ∧
    false = signalMuted emptyStore "chatEditModifiedFile" :=
  ⟨by decide, by decide,
    (signalStates_complete emptyStore "chatEditModifiedFile" false
      ⟨[300], some 300, []⟩ 300 (by decide) (by decide)).2.2.2.2.1⟩

/-- Counterexample to claim C7: processing an inbound `requestSignals`
message in the idle panel posts nothing at all — instead of an immediate
authoritative send it schedules a debounce timer `D` = 300 ms out. -/
theorem requestSignals_not_immediate :
    (panelStep emptyStore initialPanel (PanelEv.request 0)).sends = [] ∧
    (panelStep emptyStore initialPanel (PanelEv.request 0)).live = [300] ∧
    (panelStep emptyStore initialPanel (PanelEv.request 0)).handle =
      some 300 := by
  refine ⟨rfl, ?_, rfl⟩
  show ([] : List Nat) ++ [0 + D] = [300]
  rfl

/-- Amended claim C7: an inbound `requestSignals` message does not post a
snapshot at receipt; it runs the debounced `_sendSignalStates`, i.e. it
cancels any stored timer and schedules a fresh one `D` ms out, and only
when that timer fires (if no further call resets it) is the snapshot —
read from the store at fire time — posted. -/
theorem requestSignals_debounced (st : Store) (t : Nat) (p : Panel)
    (hp : timerInv p) :
    panelStep st p (PanelEv.request t) = sendSignalStates t p ∧
    (sendSignalStates t p).sends = p.sends ∧
    (sendSignalStates t p).handle = some (t + D) ∧
    (sendSignalStates t p).live = [t + D] ∧
    (settleAll st (sendSignalStates t p)).sends =
      p.sends ++ [doSendSignalStates st] := by
  obtain ⟨hl, _, hs⟩ := clearStoredTimeout_live p hp
  have hlive : (sendSignalStates t p).live = [t + D] := by
    unfold sendSignalStates
    simp [hl]
  have hsends : (sendSignalStates t p).sends = p.sends := by
    unfold sendSignalStates
    simpa using hs
  refine ⟨rfl, hsends, rfl, hlive, ?_⟩
  unfold settleAll
  rw [hlive]
  unfold fireTimer
  simp [hlive, hsends]

/-- Concrete witness for `requestSignals_debounced`. -/
theorem requestSignals_debounced_witness :
    timerInv initialPanel ∧
    (settleAll emptyStore (sendSignalStates 5 initialPanel)).sends =
      [doSendSignalStates emptyStore] :=
  ⟨timerInv_initial,
    (requestSignals_debounced emptyStore 5 initialPanel
      timerInv_initial).2.2.2.2⟩

/-- Claim C8: the `updateSignal` handler writes exactly the named key:
every other signal key keeps its stored state (so the next authoritative
snapshot reports it unchanged), the persisted flag is untouched, and the
named key receives the new value whenever the store accepts the write. -/
theorem updateSignal_single_write (fails : String → Bool) (st : Store)
    (key : String) (value : Bool) (k : String) (h : k ≠ key) :
    (handleUpdateSignal fails st key value).signals k = st.signals k ∧
    (handleUpdateSignal fails st key value).silenceAllSounds =
      st.silenceAllSounds ∧
    (handleUpdateSignal fails st key value).signals key =
      (if fails key then st.signals key else some (soundValue value)) ∧
    signalMuted (handleUpdateSignal fails st key value) k =
      signalMuted st k := by
  have heq : handleUpdateSignal fails st key value =
      signalUpdateCaughtRun fails st key (soundValue value) := rfl
  have hk : (handleUpdateSignal fails st key value).signals k =
      st.signals k := by
    rw [heq, signalUpdateCaughtRun_signals]
    simp [h]
  refine ⟨hk, ?_, ?_, ?_⟩
  · rw [heq, signalUpdateCaughtRun_flag]
  · rw [heq, signalUpdateCaughtRun_signals]
    by_cases hf : fails key <;> simp [hf]
  · unfold signalMuted
    rw [hk]

/-- Concrete witness for `updateSignal_single_write`. -/
theorem updateSignal_single_write_witness :
    "format" ≠ "save" ∧
    (handleUpdateSignal (fun _ => false) emptyStore "save" true).signals
        "format" = emptyStore.signals "format" :=
  ⟨by decide,
    (updateSignal_single_write (fun _ => false) emptyStore "save" true
      "format" (by decide)).1⟩

/-- Claim C9: an absent signal key is distinct from one stored unmuted
(the store read yields no value rather than the unmuted object), and
absence aborts nothing: the posted snapshot still has its full 34
entries (the absent key reported unmuted), the master-toggle fan-out
still resolves, the absent key whose write the store rejects simply
keeps its absent state, and every other key is written exactly as the
oracle allows. -/
theorem absent_key_isolated (st : Store) (k : String)
    (fails : String → Bool) (failsFlag : Bool) (silent : Bool)
    (h1 : k ∈ SettingsPanel_ALL_SIGNALS) (h2 : st.signals k = none)
    (h3 : fails k = true) :
    (none : Option SignalValue) ≠ some (soundValue false) ∧
    (k, false) ∈ doSendSignalStates st ∧
    (doSendSignalStates st).length = 34 ∧
    setSilenceAllSounds fails failsFlag silent st =
      .ok (setSilenceAllSoundsRun fails failsFlag silent st) ∧
    (setSilenceAllSoundsRun fails failsFlag silent st).signals k = none ∧
    (∀ k2, (setSilenceAllSoundsRun fails failsFlag silent st).signals k2 =
      if k2 ∈ ALL_SOUND_SIGNALS ∧ fails k2 = false then some (soundValue silent)
      else st.signals k2) := by
  refine ⟨by simp, ?_, by simp [doSendSignalStates]; rfl,
    setSilenceAllSounds_ok fails failsFlag silent st, ?_, fun k2 => rfl⟩
  · simp only [doSendSignalStates, List.mem_map]
    exact ⟨k, h1, by simp [signalMuted, h2]⟩
  · simp [setSilenceAllSoundsRun, h3, h2]

/-- Concrete witness for `absent_key_isolated`. -/
theorem absent_key_isolated_witness :
    "save" ∈ SettingsPanel_ALL_SIGNALS ∧
    emptyStore.signals "save" = none ∧
    (setSilenceAllSoundsRun (fun _ => true) true true emptyStore).signals
        "save" = none :=
  ⟨by decide, rfl,
    (absent_key_isolated emptyStore "save" (fun _ => true) true true
      (by decide) rfl rfl).2.2.2.2.1⟩

end ProjectLabel
